import Mathlib

/-!
# Verification of the mikrotik-exporter startup and configuration layer

A shallow embedding of `main.go` and the `config` package of the
mikrotik-exporter repository.  Go strings are Lean `String`s, byte slices
are `List Nat`, `time.Duration` (an `int64` nanosecond count) is `Int`,
and Go's `(value, error)` multiple return is `Except String value`
(`Except.error e` models the `(nil, err)` return, `Except.ok v` the
`(v, nil)` return).  External collaborators (the `os` package, the YAML
library, the prometheus registry, and the repository's `collector`
package, whose source is not part of this development) are passed in as
explicit parameters so that all theorems hold for every behaviour of
those collaborators.
-/

namespace config

/-- Feature toggles of the config file (`Features` in the config package):
nineteen booleans, one per feature domain.  Go's zero value for `bool` is
`false`. -/
structure Features where
  BGP       : Bool
  Conntrack : Bool
  DHCP      : Bool
  DHCPL     : Bool
  DHCPv6    : Bool
  Firmware  : Bool
  Health    : Bool
  Routes    : Bool
  POE       : Bool
  Pools     : Bool
  Optics    : Bool
  W60G      : Bool
  WlanSTA   : Bool
  Capsman   : Bool
  WlanIF    : Bool
  Monitor   : Bool
  Ipsec     : Bool
  Lte       : Bool
  Netwatch  : Bool
deriving DecidableEq, Repr

/-- The Go zero value of `Features`: every toggle `false`. -/
def Features.zero : Features :=
  ⟨false, false, false, false, false, false, false, false, false, false,
   false, false, false, false, false, false, false, false, false⟩

/-- `DnsServer` of the config package. -/
structure DnsServer where
  Address : String
  Port    : Int
deriving DecidableEq, Repr

/-- The Go zero value of `DnsServer`. -/
def DnsServer.zero : DnsServer := ⟨"", 0⟩

/-- `SrvRecord` of the config package. -/
structure SrvRecord where
  Record : String
  Dns    : DnsServer
deriving DecidableEq, Repr

/-- The Go zero value of `SrvRecord`. -/
def SrvRecord.zero : SrvRecord := ⟨"", DnsServer.zero⟩

/-- `Device` of the config package: a target device. -/
structure Device where
  Name     : String
  Address  : String
  Srv      : SrvRecord
  User     : String
  Password : String
  Port     : String
deriving DecidableEq, Repr

/-- `Config` of the config package: the configuration for the exporter. -/
structure Config where
  Devices  : List Device
  Features : Features
deriving DecidableEq, Repr

/-- The Go zero value of `Config` (`&Config{}`): nil device slice
(modelled as the empty list) and all feature toggles `false`. -/
def Config.zero : Config := ⟨[], Features.zero⟩

/-- Raw bytes handed to the YAML library (`[]byte`). -/
abbrev Bytes := List Nat

/-- The type of `yaml.Unmarshal` as used by `Load`: given the document
bytes and the value the caller allocated (`&Config{}`, the zero value),
the library either fails or produces the updated value.  The YAML
library is an external dependency, so `Load` is parametrised over it. -/
abbrev Unmarshal := Bytes → Config → Except String Config

/-- `Load` of the config package: allocates a zero `Config`, asks the
YAML library to unmarshal into it, and returns `(nil, err)` on failure
(modelled as `Except.error err`) or `(c, nil)` on success (modelled as
`Except.ok c`). -/
def Load (unmarshal : Unmarshal) (data : Bytes) : Except String Config :=
  match unmarshal data Config.zero with
  | .error e => .error e
  | .ok c => .ok c

end config

namespace collector

/-- The collector options of `main.go`'s option list, one constructor per
`collector.With*` builder applied there (plus `collector.Monitor`).
`WithTimeout` carries the flag duration and `WithTLS` carries the
certificate-verification-skip toggle. -/
inductive Option where
  | WithBGP
  | WithRoutes
  | WithDHCP
  | WithDHCPL
  | WithDHCPv6
  | WithFirmware
  | WithHealth
  | WithPOE
  | WithPools
  | WithOptics
  | WithW60G
  | WithWlanSTA
  | WithCapsman
  | WithWlanIF
  | Monitor
  | WithIpsec
  | WithConntrack
  | WithLte
  | WithNetwatch
  | WithTimeout (d : Int)
  | WithTLS (insecure : Bool)
deriving DecidableEq, Repr

end collector

/-- The parsed command-line flags of `main.go` after `flag.Parse()`:
each field is the value of the global flag pointer of the same name. -/
structure Flags where
  address       : String
  configFile    : String
  device        : String
  insecure      : Bool
  logFormat     : String
  logLevel      : String
  metricsPath   : String
  password      : String
  deviceport    : String
  port          : String
  timeout       : Int
  tls           : Bool
  user          : String
  ver           : Bool
  withBgp       : Bool
  withConntrack : Bool
  withRoutes    : Bool
  withDHCP      : Bool
  withDHCPL     : Bool
  withDHCPv6    : Bool
  withFirmware  : Bool
  withHealth    : Bool
  withPOE       : Bool
  withPools     : Bool
  withOptics    : Bool
  withW60G      : Bool
  withWlanSTA   : Bool
  withWlanIF    : Bool
  withCapsman   : Bool
  withMonitor   : Bool
  withIpsec     : Bool
  withLte       : Bool
  withNetwatch  : Bool
deriving DecidableEq, Repr

/-- `collectorOptions` of `main.go`: starts from the empty option list and
conditionally appends one option per feature domain (each `if cond opts =
append(opts, X)` step contributes `if cond then [X] else []`, concatenated
in source order), then the timeout option when the timeout flag differs
from `collector.DefaultTimeout`, then the TLS option when the tls flag is
set.  The `collector` package is not part of this development, so the
value of `collector.DefaultTimeout` is an explicit parameter. -/
def collectorOptions (fl : Flags) (cfg : config.Config)
    (defaultTimeout : Int) : List collector.Option :=
  (if fl.withBgp || cfg.Features.BGP then [.WithBGP] else [])
  ++ (if fl.withRoutes || cfg.Features.Routes then [.WithRoutes] else [])
  ++ (if fl.withDHCP || cfg.Features.DHCP then [.WithDHCP] else [])
  ++ (if fl.withDHCPL || cfg.Features.DHCPL then [.WithDHCPL] else [])
  ++ (if fl.withDHCPv6 || cfg.Features.DHCPv6 then [.WithDHCPv6] else [])
  ++ (if fl.withFirmware || cfg.Features.Firmware then [.WithFirmware] else [])
  ++ (if fl.withHealth || cfg.Features.Health then [.WithHealth] else [])
  ++ (if fl.withPOE || cfg.Features.POE then [.WithPOE] else [])
  ++ (if fl.withPools || cfg.Features.Pools then [.WithPools] else [])
  ++ (if fl.withOptics || cfg.Features.Optics then [.WithOptics] else [])
  ++ (if fl.withW60G || cfg.Features.W60G then [.WithW60G] else [])
  ++ (if fl.withWlanSTA || cfg.Features.WlanSTA then [.WithWlanSTA] else [])
  ++ (if fl.withCapsman || cfg.Features.Capsman then [.WithCapsman] else [])
  ++ (if fl.withWlanIF || cfg.Features.WlanIF then [.WithWlanIF] else [])
  ++ (if fl.withMonitor || cfg.Features.Monitor then [.Monitor] else [])
  ++ (if fl.withIpsec || cfg.Features.Ipsec then [.WithIpsec] else [])
  ++ (if fl.withConntrack || cfg.Features.Conntrack then [.WithConntrack] else [])
  ++ (if fl.withLte || cfg.Features.Lte then [.WithLte] else [])
  ++ (if fl.withNetwatch || cfg.Features.Netwatch then [.WithNetwatch] else [])
  ++ (if fl.timeout ≠ defaultTimeout then [.WithTimeout fl.timeout] else [])
  ++ (if fl.tls then [.WithTLS fl.insecure] else [])

/-- The error-handling strategies of the promhttp library
(`promhttp.HandlerOpts.ErrorHandling`). -/
inductive ErrorHandling where
  | HTTPErrorOnError
  | ContinueOnError
  | PanicOnError
deriving DecidableEq, Repr

/-- The configuration of the promhttp handler that
`createMetricsHandler` builds: the only field of `promhttp.HandlerOpts`
relevant to response behaviour is the error-handling strategy. -/
structure MetricsHandlerCfg where
  errorHandling : ErrorHandling
deriving DecidableEq, Repr

/-- The outcome of one gather pass of the registry during a scrape:
whether any registered collector reported an error, and the encoded
metric text that was gathered anyway. -/
structure GatherOutcome where
  errored : Bool
  output  : String
deriving DecidableEq, Repr

/-- An HTTP response: status code and body. -/
structure HttpResponse where
  status : Nat
  body   : String
deriving DecidableEq, Repr

/-- Modelled from the spec: the promhttp library's serving contract
(`promhttp.HandlerFor`), which is not part of this repository.  With
`ContinueOnError` the handler always answers with HTTP success and
whatever metrics were gathered; with `HTTPErrorOnError` a gather error
becomes an HTTP error response; `PanicOnError` aborts the response on a
gather error (modelled as a non-success status). -/
def promhttpResponse (mh : MetricsHandlerCfg) (g : GatherOutcome) : HttpResponse :=
  match mh.errorHandling with
  | .ContinueOnError => ⟨200, g.output⟩
  | .HTTPErrorOnError => if g.errored then ⟨500, ""⟩ else ⟨200, g.output⟩
  | .PanicOnError => if g.errored then ⟨500, ""⟩ else ⟨200, g.output⟩

/-- The handlers registered on the mux by `newServer`: the promhttp
metrics handler, the liveness handler, and the index-page handler
(which embeds the metrics path in its HTML body). -/
inductive Handler where
  | metricsH (mh : MetricsHandlerCfg)
  | healthzH
  | rootH (metricsPath : String)
deriving DecidableEq, Repr

/-- Modelled from the spec: `net/http.ServeMux` pattern matching for
path patterns (host-qualified patterns are not used by this program).
A pattern ending in a slash matches every path it is a prefix of; any
other pattern matches only the identical path.  Paths and patterns are
lists of characters. -/
def patternMatches (pattern path : List Char) : Bool :=
  if pattern.getLast? = some '/' then pattern.isPrefixOf path
  else pattern == path

/-- Modelled from the spec: `net/http.ServeMux.Handle` registration.  Go
panics on an empty pattern or a duplicate registration; the panic is
modelled as `Except.error` (either way the server never serves a
request). -/
def muxHandle (routes : List (List Char × Handler)) (pattern : List Char)
    (h : Handler) : Except String (List (List Char × Handler)) :=
  if pattern = [] then .error "http: invalid pattern"
  else if routes.any (fun r => r.1 = pattern) then
    .error "http: multiple registrations"
  else .ok (routes ++ [(pattern, h)])

/-- Modelled from the spec: `net/http.ServeMux` dispatch — the
registered pattern matching the request path with the longest pattern
wins (registered patterns are pairwise distinct, so no tie between
distinct routes has equal length; on an impossible tie the earlier
registration is kept). -/
def muxServe (routes : List (List Char × Handler)) (path : List Char) :
    Option (List Char × Handler) :=
  routes.foldl
    (fun best r =>
      if patternMatches r.1 path then
        match best with
        | none => some r
        | some b => if r.1.length > b.1.length then some r else best
      else best)
    none

/-- The behaviour of the external collaborators `main.go` calls out to,
parametrised over the type of the value `collector.NewCollector`
returns (the `collector` package is not part of this development):
`os.ReadFile`, `os.Getenv`, `yaml.Unmarshal`, the value of
`collector.DefaultTimeout`, `collector.NewCollector`, the outcomes of
the two `registry.Register` calls, and whether `log.ParseLevel`
accepts the log-level flag. -/
structure Environment (Collector : Type) where
  fileRead      : String → Except String config.Bytes
  getenv        : String → String
  unmarshal     : config.Unmarshal
  defaultTimeout : Int
  newCollector  : config.Config → List collector.Option → Except String Collector
  registerGoErr : Option String
  registerErr   : Collector → Option String
  parseLevelOk  : String → Bool

/-- `loadConfigFromFlags` of `main.go`: falls back to the
`MIKROTIK_USER` / `MIKROTIK_PASSWORD` environment variables when the
`user` / `password` flags are empty, fails when any required value is
still empty, and otherwise builds a one-device configuration with no
features enabled. -/
def loadConfigFromFlags (getenv : String → String) (fl : Flags) :
    Except String config.Config :=
  let user := if fl.user = "" then getenv "MIKROTIK_USER" else fl.user
  let password := if fl.password = "" then getenv "MIKROTIK_PASSWORD" else fl.password
  if fl.device = "" ∨ fl.address = "" ∨ user = "" ∨ password = "" then
    .error "missing required param for single device configuration"
  else
    .ok { Devices := [{ Name := fl.device, Address := fl.address,
                        Srv := config.SrvRecord.zero, User := user,
                        Password := password, Port := fl.deviceport }],
          Features := config.Features.zero }

/-- `loadConfigFromFile` of `main.go`: reads the config file and hands
the bytes to `config.Load`. -/
def loadConfigFromFile {C : Type} (env : Environment C) (fl : Flags) :
    Except String config.Config :=
  match env.fileRead fl.configFile with
  | .error e => .error e
  | .ok b => config.Load env.unmarshal b

/-- `loadConfig` of `main.go`: the file path when the config-file flag
is non-empty, the single-device flag path otherwise. -/
def loadConfig {C : Type} (env : Environment C) (fl : Flags) :
    Except String config.Config :=
  if fl.configFile ≠ "" then loadConfigFromFile env fl
  else loadConfigFromFlags env.getenv fl

/-- `createMetricsHandler` of `main.go`: constructs the device collector
with the merged option list, registers the Go collector and the device
collector on a fresh registry, and on success returns the promhttp
handler configured with `ErrorHandling: promhttp.ContinueOnError`. -/
def createMetricsHandler {C : Type} (env : Environment C) (fl : Flags)
    (cfg : config.Config) : Except String MetricsHandlerCfg :=
  match env.newCollector cfg (collectorOptions fl cfg env.defaultTimeout) with
  | .error e => .error e
  | .ok nc =>
    match env.registerGoErr with
    | some e => .error e
    | none =>
      match env.registerErr nc with
      | some e => .error e
      | none => .ok { errorHandling := .ContinueOnError }

/-- The index page body written by the root handler of `newServer`. -/
def indexHTML (metricsPath : String) : String :=
  "<html>\n\t\t\t<head><title>Mikrotik Exporter</title></head>\n\t\t\t<body>\n\t\t\t<h1>Mikrotik Exporter</h1>\n\t\t\t<p><a href=\"" ++ metricsPath ++ "\">Metrics</a></p>\n\t\t\t</body>\n\t\t\t</html>"

/-- The `http.Server` value `newServer` builds: listen address and the
routes registered on its mux. -/
structure Server where
  Addr   : String
  routes : List (List Char × Handler)
deriving DecidableEq, Repr

/-- `newServer` of `main.go`: builds the metrics handler, then registers
it at the metrics path, the liveness handler at `/healthz`, and the
index handler at `/`, in source order. -/
def newServer {C : Type} (env : Environment C) (fl : Flags)
    (cfg : config.Config) : Except String Server :=
  match createMetricsHandler env fl cfg with
  | .error e => .error e
  | .ok mh =>
    match muxHandle [] fl.metricsPath.toList (.metricsH mh) with
    | .error e => .error e
    | .ok r1 =>
      match muxHandle r1 "/healthz".toList .healthzH with
      | .error e => .error e
      | .ok r2 =>
        match muxHandle r2 "/".toList (.rootH fl.metricsPath) with
        | .error e => .error e
        | .ok r3 => .ok { Addr := fl.port, routes := r3 }

/-- The response each registered handler writes.  Writing a body without
setting a status first answers with the default success status 200. -/
def handlerResponse (h : Handler) (g : GatherOutcome) : HttpResponse :=
  match h with
  | .metricsH mh => promhttpResponse mh g
  | .healthzH => ⟨200, "ok"⟩
  | .rootH mp => ⟨200, indexHTML mp⟩

/-- The response of the server to a request: mux dispatch followed by
the selected handler (Go's mux answers 404 when nothing matches). -/
def serverResponse (srv : Server) (path : List Char) (g : GatherOutcome) :
    HttpResponse :=
  match muxServe srv.routes path with
  | some r => handlerResponse r.2 g
  | none => ⟨404, "404 page not found\n"⟩

/-- The observable outcome of `main`: exit 0 after printing the version,
the `configureLog` panic on an unparsable log level, `os.Exit(3)` after
a config-load failure, the fatal exit when `newServer` fails, or a
created server on which `ListenAndServe` is called. -/
inductive MainResult where
  | versionExit
  | logConfigPanic
  | configExit3
  | serverCreateFatal
  | listen (srv : Server)
deriving DecidableEq, Repr

namespace exporter

/-- `main` of `main.go` after `flag.Parse()`: version short-circuit, log
configuration, config loading (exit 3 on failure), server construction
(fatal log on failure), then `ListenAndServe`.  (Lean reserves the
top-level name `main`, so it lives in the `exporter` namespace.) -/
def main {C : Type} (env : Environment C) (fl : Flags) : MainResult :=
  if fl.ver then .versionExit
  else if env.parseLevelOk fl.logLevel = false then .logConfigPanic
  else
    match loadConfig env fl with
    | .error _ => .configExit3
    | .ok c =>
      match newServer env fl c with
      | .error _ => .serverCreateFatal
      | .ok srv => .listen srv

end exporter

theorem mem_ite_singleton {α : Type} (a b : α) (c : Prop) [Decidable c] :
    (a ∈ if c then [b] else ([] : List α)) ↔ c ∧ a = b := by
  split
  · simp_all
  · simp_all

/-- C1: for every feature domain, the option enabling it is in the option
list built at startup if and only if the CLI flag for it is true or the
config-file feature toggle for it is true (union / OR semantics), for
every flag assignment, configuration and default-timeout value. -/
theorem collectorOptions_union_semantics (fl : Flags) (cfg : config.Config)
    (dt : Int) :
    (collector.Option.WithBGP ∈ collectorOptions fl cfg dt
      ↔ (fl.withBgp = true ∨ cfg.Features.BGP = true))
    ∧ (collector.Option.WithConntrack ∈ collectorOptions fl cfg dt
      ↔ (fl.withConntrack = true ∨ cfg.Features.Conntrack = true))
    ∧ (collector.Option.WithRoutes ∈ collectorOptions fl cfg dt
      ↔ (fl.withRoutes = true ∨ cfg.Features.Routes = true))
    ∧ (collector.Option.WithDHCP ∈ collectorOptions fl cfg dt
      ↔ (fl.withDHCP = true ∨ cfg.Features.DHCP = true))
    ∧ (collector.Option.WithDHCPL ∈ collectorOptions fl cfg dt
      ↔ (fl.withDHCPL = true ∨ cfg.Features.DHCPL = true))
    ∧ (collector.Option.WithDHCPv6 ∈ collectorOptions fl cfg dt
      ↔ (fl.withDHCPv6 = true ∨ cfg.Features.DHCPv6 = true))
    ∧ (collector.Option.WithFirmware ∈ collectorOptions fl cfg dt
      ↔ (fl.withFirmware = true ∨ cfg.Features.Firmware = true))
    ∧ (collector.Option.WithHealth ∈ collectorOptions fl cfg dt
      ↔ (fl.withHealth = true ∨ cfg.Features.Health = true))
    ∧ (collector.Option.WithPOE ∈ collectorOptions fl cfg dt
      ↔ (fl.withPOE = true ∨ cfg.Features.POE = true))
    ∧ (collector.Option.WithPools ∈ collectorOptions fl cfg dt
      ↔ (fl.withPools = true ∨ cfg.Features.Pools = true))
    ∧ (collector.Option.WithOptics ∈ collectorOptions fl cfg dt
      ↔ (fl.withOptics = true ∨ cfg.Features.Optics = true))
    ∧ (collector.Option.WithW60G ∈ collectorOptions fl cfg dt
      ↔ (fl.withW60G = true ∨ cfg.Features.W60G = true))
    ∧ (collector.Option.WithWlanSTA ∈ collectorOptions fl cfg dt
      ↔ (fl.withWlanSTA = true ∨ cfg.Features.WlanSTA = true))
    ∧ (collector.Option.WithCapsman ∈ collectorOptions fl cfg dt
      ↔ (fl.withCapsman = true ∨ cfg.Features.Capsman = true))
    ∧ (collector.Option.WithWlanIF ∈ collectorOptions fl cfg dt
      ↔ (fl.withWlanIF = true ∨ cfg.Features.WlanIF = true))
    ∧ (collector.Option.Monitor ∈ collectorOptions fl cfg dt
      ↔ (fl.withMonitor = true ∨ cfg.Features.Monitor = true))
    ∧ (collector.Option.WithIpsec ∈ collectorOptions fl cfg dt
      ↔ (fl.withIpsec = true ∨ cfg.Features.Ipsec = true))
    ∧ (collector.Option.WithLte ∈ collectorOptions fl cfg dt
      ↔ (fl.withLte = true ∨ cfg.Features.Lte = true))
    ∧ (collector.Option.WithNetwatch ∈ collectorOptions fl cfg dt
      ↔ (fl.withNetwatch = true ∨ cfg.Features.Netwatch = true)) := by
  refine ⟨?_, ?_, ?_, ?_, ?_, ?_, ?_, ?_, ?_, ?_, ?_, ?_, ?_, ?_, ?_, ?_,
    ?_, ?_, ?_⟩ <;>
    simp [collectorOptions, List.mem_append, mem_ite_singleton]

/-- C6: a TLS option carrying the insecure (certificate-verification-skip)
flag is in the option list if and only if the tls flag is set, its payload
is always the insecure flag, and when the tls flag is false the insecure
flag has no effect on the option list at all. -/
theorem collectorOptions_tls_semantics (fl : Flags) (cfg : config.Config)
    (dt : Int) :
    ((∃ b, collector.Option.WithTLS b ∈ collectorOptions fl cfg dt)
      ↔ fl.tls = true)
    ∧ (fl.tls = true →
        collector.Option.WithTLS fl.insecure ∈ collectorOptions fl cfg dt)
    ∧ (∀ b, collector.Option.WithTLS b ∈ collectorOptions fl cfg dt →
        b = fl.insecure)
    ∧ (∀ b, fl.tls = false →
        collectorOptions { fl with insecure := b } cfg dt
          = collectorOptions fl cfg dt) := by
  refine ⟨?_, ?_, ?_, ?_⟩
  · simp [collectorOptions, List.mem_append, mem_ite_singleton]
  · intro h
    simp [collectorOptions, List.mem_append, mem_ite_singleton, h]
  · intro b
    simp [collectorOptions, List.mem_append, mem_ite_singleton]
  · intro b h
    simp [collectorOptions, h]

/-- C7: a timeout option carrying the timeout flag's duration is in the
option list if and only if that duration differs from
`collector.DefaultTimeout` (here the parameter `dt`); when they are equal
no timeout option of any payload is present, and any timeout option that
is present carries exactly the flag's duration. -/
theorem collectorOptions_timeout_semantics (fl : Flags) (cfg : config.Config)
    (dt : Int) :
    ((∃ d, collector.Option.WithTimeout d ∈ collectorOptions fl cfg dt)
      ↔ fl.timeout ≠ dt)
    ∧ (fl.timeout ≠ dt →
        collector.Option.WithTimeout fl.timeout ∈ collectorOptions fl cfg dt)
    ∧ (∀ d, collector.Option.WithTimeout d ∈ collectorOptions fl cfg dt →
        d = fl.timeout) := by
  refine ⟨?_, ?_, ?_⟩
  · simp [collectorOptions, List.mem_append, mem_ite_singleton]
  · intro h
    simp [collectorOptions, List.mem_append, mem_ite_singleton, h]
  · intro d
    simp [collectorOptions, List.mem_append, mem_ite_singleton]

/-- The flag values `flag.Parse()` produces when no argument is given:
each flag's declared default.  (`collector.DefaultTimeout`, the default
of the timeout flag, is taken as 5s = 5000000000ns here; the theorems
are parametric in it.) -/
def defaultFlags : Flags :=
  { address := "", configFile := "", device := "", insecure := false,
    logFormat := "json", logLevel := "info", metricsPath := "/metrics",
    password := "", deviceport := "8728", port := ":9436",
    timeout := 5000000000, tls := false, user := "", ver := false,
    withBgp := false, withConntrack := false, withRoutes := false,
    withDHCP := false, withDHCPL := false, withDHCPv6 := false,
    withFirmware := false, withHealth := false, withPOE := false,
    withPools := false, withOptics := false, withW60G := false,
    withWlanSTA := false, withWlanIF := false, withCapsman := false,
    withMonitor := false, withIpsec := false, withLte := false,
    withNetwatch := false }

/-- One concrete behaviour of the external collaborators, used to
evaluate the theorems at a concrete input: no file exists, the
environment variables are unset, unmarshalling leaves the target
unchanged, collector construction and registration succeed, and the
log level parses. -/
def unitEnvironment : Environment Unit :=
  { fileRead := fun _ => .error "open: no such file or directory",
    getenv := fun _ => "",
    unmarshal := fun _ c => .ok c,
    defaultTimeout := 5000000000,
    newCollector := fun _ _ => .ok (),
    registerGoErr := none,
    registerErr := fun _ => none,
    parseLevelOk := fun _ => true }

/-- C2: when loading the configuration fails, `main` takes the
`os.Exit(3)` path — it logs and exits with status 3 and the HTTP server
is never created or started. -/
theorem main_config_failure_exits_3 {C : Type} (env : Environment C)
    (fl : Flags) (e : String) (hver : fl.ver = false)
    (hlog : env.parseLevelOk fl.logLevel = true)
    (h : loadConfig env fl = .error e) :
    exporter.main env fl = MainResult.configExit3
    ∧ ∀ srv, exporter.main env fl ≠ MainResult.listen srv := by
  unfold exporter.main
  simp [hver, hlog, h]

/-- Witness for C2: with no config file, no flags and no environment
variables, config loading fails and `main` exits with status 3. -/
theorem main_config_failure_exits_3_witness :
    exporter.main unitEnvironment defaultFlags = MainResult.configExit3
    ∧ ∀ srv, exporter.main unitEnvironment defaultFlags ≠ MainResult.listen srv :=
  main_config_failure_exits_3 unitEnvironment defaultFlags
    "missing required param for single device configuration" rfl rfl rfl

/-- C4: `config.Load` fails exactly when the YAML library fails on the
document (unmarshalling into the zero `Config`), on library success it
returns exactly the decoded configuration, and on library failure it
propagates the library's error (the Go return `(nil, err)`, modelled as
`Except.error`). -/
theorem Load_mirrors_unmarshal (u : config.Unmarshal) (d : config.Bytes) :
    ((∃ e, config.Load u d = .error e)
      ↔ (∃ e, u d config.Config.zero = .error e))
    ∧ (∀ c, u d config.Config.zero = .ok c → config.Load u d = .ok c)
    ∧ (∀ e, u d config.Config.zero = .error e →
        config.Load u d = .error e) := by
  refine ⟨?_, ?_, ?_⟩ <;>
    · cases h : u d config.Config.zero <;> simp [config.Load, h]

/-- C10: when the YAML library accepts the document and leaves the zero
`Config` unchanged (as it does for a document omitting `devices` and
`features`, including the empty document), `config.Load` succeeds with
an empty device list and all feature toggles false — an empty device
list is not a configuration error. -/
theorem Load_empty_document_ok (u : config.Unmarshal) (d : config.Bytes)
    (h : u d config.Config.zero = .ok config.Config.zero) :
    config.Load u d
      = .ok { Devices := [], Features := config.Features.zero } := by
  simp [config.Load, h]
  rfl

/-- Witness for C10: an identity unmarshaller on the empty document. -/
theorem Load_empty_document_ok_witness :
    config.Load (fun _ c => .ok c) []
      = .ok { Devices := [], Features := config.Features.zero } :=
  Load_empty_document_ok (fun _ c => .ok c) [] rfl

/-- C8: with no config file, the user/password flags fall back to the
`MIKROTIK_USER` / `MIKROTIK_PASSWORD` environment variables when empty;
loading fails exactly when device, address, effective user or effective
password is still empty, and otherwise yields exactly one device built
from the flags with no features enabled. -/
theorem loadConfigFromFlags_semantics (getenv : String → String)
    (fl : Flags) :
    ((∃ e, loadConfigFromFlags getenv fl = .error e)
      ↔ (fl.device = "" ∨ fl.address = ""
          ∨ (if fl.user = "" then getenv "MIKROTIK_USER" else fl.user) = ""
          ∨ (if fl.password = ""
              then getenv "MIKROTIK_PASSWORD" else fl.password) = ""))
    ∧ (¬(fl.device = "" ∨ fl.address = ""
          ∨ (if fl.user = "" then getenv "MIKROTIK_USER" else fl.user) = ""
          ∨ (if fl.password = ""
              then getenv "MIKROTIK_PASSWORD" else fl.password) = "") →
        loadConfigFromFlags getenv fl
          = .ok { Devices := [{
                    Name := fl.device, Address := fl.address,
                    Srv := config.SrvRecord.zero,
                    User := if fl.user = ""
                            then getenv "MIKROTIK_USER" else fl.user,
                    Password := if fl.password = ""
                                then getenv "MIKROTIK_PASSWORD" else fl.password,
                    Port := fl.deviceport }],
                  Features := config.Features.zero }) := by
  by_cases hc : fl.device = "" ∨ fl.address = ""
      ∨ (if fl.user = "" then getenv "MIKROTIK_USER" else fl.user) = ""
      ∨ (if fl.password = ""
          then getenv "MIKROTIK_PASSWORD" else fl.password) = ""
  · refine ⟨?_, fun hn => absurd hc hn⟩
    simp [loadConfigFromFlags, hc]
  · refine ⟨?_, fun _ => ?_⟩
    · simp [loadConfigFromFlags, hc]
    · simp [loadConfigFromFlags, hc]

/-- C9: with a non-empty config-file flag, configuration comes
exclusively from the file: the result ignores the single-device flags
and the process environment entirely, and the flag-based path is taken
exactly when the config-file flag is empty. -/
theorem loadConfig_dispatch {C : Type} (env : Environment C) (fl : Flags) :
    (fl.configFile ≠ "" →
      ∀ (g : String → String) (d a u p dp : String),
        loadConfig { env with getenv := g }
            { fl with device := d, address := a, user := u, password := p,
                      deviceport := dp }
          = loadConfigFromFile env fl)
    ∧ (fl.configFile = "" →
        loadConfig env fl = loadConfigFromFlags env.getenv fl) := by
  constructor
  · intro h g d a u p dp
    simp [loadConfig, loadConfigFromFile, h]
  · intro h
    simp [loadConfig, h]

theorem patternMatches_healthz_short (mp : List Char)
    (h : patternMatches mp "/healthz".toList = true)
    (hne : mp ≠ "/healthz".toList) : mp.length < 8 := by
  unfold patternMatches at h
  split at h
  · have hp : mp <+: "/healthz".toList := List.isPrefixOf_iff_prefix.mp h
    rcases Nat.lt_or_ge mp.length 8 with hlt | hge
    · exact hlt
    · have hl : mp.length = ("/healthz".toList).length :=
        Nat.le_antisymm hp.length_le hge
      exact absurd (hp.eq_of_length hl) hne
  · exact absurd (by simpa using h) hne

theorem muxServe_healthz_routes (mp : List Char) (mh : MetricsHandlerCfg)
    (s : String) (hne : mp ≠ "/healthz".toList) :
    muxServe [(mp, Handler.metricsH mh), ("/healthz".toList, Handler.healthzH),
              ("/".toList, Handler.rootH s)] "/healthz".toList
      = some ("/healthz".toList, Handler.healthzH) := by
  have hh : patternMatches "/healthz".toList "/healthz".toList = true := by
    decide
  have hr : patternMatches "/".toList "/healthz".toList = true := by decide
  have hno : ¬(("/".toList).length > ("/healthz".toList).length) := by decide
  by_cases hm : patternMatches mp "/healthz".toList = true
  · have hlt : mp.length < 8 := patternMatches_healthz_short mp hm hne
    have hgt : ("/healthz".toList).length > mp.length := hlt
    simp only [muxServe, List.foldl, hm, hh, hr, eq_self_iff_true, ite_true,
      if_pos hgt]
    rw [if_neg hno]
  · rw [Bool.not_eq_true] at hm
    simp only [muxServe, List.foldl, hm, Bool.false_eq_true, if_false,
      ite_false, hh, hr, eq_self_iff_true, ite_true]
    rw [if_neg hno]

instance : Inhabited Handler := ⟨Handler.healthzH⟩

theorem muxHandle_ok_iff (routes : List (List Char × Handler)) (p : List Char)
    (hd : Handler) (r : List (List Char × Handler)) :
    muxHandle routes p hd = .ok r
      ↔ p ≠ [] ∧ routes.any (fun x => x.1 = p) = false
        ∧ routes ++ [(p, hd)] = r := by
  unfold muxHandle
  split
  next hp => simp [hp]
  next hp =>
    split
    next ha => simp [ha]
    next ha =>
      rw [Bool.not_eq_true] at ha
      simp [hp, ha]

theorem newServer_routes {C : Type} (env : Environment C) (fl : Flags)
    (cfg : config.Config) (srv : Server)
    (h : newServer env fl cfg = .ok srv) :
    ∃ mh, srv.routes
        = [(fl.metricsPath.toList, Handler.metricsH mh),
           ("/healthz".toList, Handler.healthzH),
           ("/".toList, Handler.rootH fl.metricsPath)]
      ∧ fl.metricsPath.toList ≠ "/healthz".toList := by
  unfold newServer at h
  split at h
  · simp at h
  next mh hmh =>
    split at h
    · simp at h
    next r1 h1 =>
      split at h
      · simp at h
      next r2 h2 =>
        split at h
        · simp at h
        next r3 h3 =>
          rw [muxHandle_ok_iff] at h1 h2 h3
          obtain ⟨hp1, -, rfl⟩ := h1
          obtain ⟨-, ha2, rfl⟩ := h2
          obtain ⟨-, -, rfl⟩ := h3
          simp only [Except.ok.injEq] at h
          subst h
          refine ⟨mh, by simp, ?_⟩
          simpa using ha2

/-- C5: every HTTP request to the `/healthz` path on a server built by
`newServer` is answered with the body `"ok"` and the default success
status, independent of the device configuration, the collaborators'
behaviour and the outcome of any scrape. -/
theorem healthz_always_ok {C : Type} (env : Environment C) (fl : Flags)
    (cfg : config.Config) (srv : Server) (g : GatherOutcome)
    (h : newServer env fl cfg = .ok srv) :
    serverResponse srv "/healthz".toList g = ⟨200, "ok"⟩ := by
  obtain ⟨mh, hr, hne⟩ := newServer_routes env fl cfg srv h
  unfold serverResponse
  rw [hr, muxServe_healthz_routes _ _ _ hne]
  rfl

/-- Witness for C5: the concrete server built from the default flags,
answering `/healthz` during a scrape whose gather pass errored. -/
theorem healthz_always_ok_witness :
    serverResponse
      { Addr := ":9436",
        routes := [("/metrics".toList,
                    Handler.metricsH { errorHandling := .ContinueOnError }),
                   ("/healthz".toList, Handler.healthzH),
                   ("/".toList, Handler.rootH "/metrics")] }
      "/healthz".toList { errored := true, output := "" }
      = ⟨200, "ok"⟩ :=
  healthz_always_ok unitEnvironment defaultFlags config.Config.zero _
    { errored := true, output := "" } rfl

/-- C3: a metrics handler `createMetricsHandler` successfully builds is
configured with `promhttp.ContinueOnError`, so every scrape request is
answered with HTTP success and whatever metrics were gathered, for
every gather outcome including one that reported collector errors. -/
theorem metrics_handler_continues_on_error {C : Type} (env : Environment C)
    (fl : Flags) (cfg : config.Config) (mh : MetricsHandlerCfg)
    (h : createMetricsHandler env fl cfg = .ok mh) :
    mh.errorHandling = ErrorHandling.ContinueOnError
    ∧ ∀ g : GatherOutcome, (promhttpResponse mh g).status = 200
        ∧ (promhttpResponse mh g).body = g.output := by
  unfold createMetricsHandler at h
  split at h
  · simp at h
  next nc hnc =>
    split at h
    · simp at h
    · split at h
      · simp at h
      · simp only [Except.ok.injEq] at h
        subst h
        exact ⟨rfl, fun g => ⟨rfl, rfl⟩⟩

/-- Witness for C3: the concrete environment in which construction and
registration succeed. -/
theorem metrics_handler_continues_on_error_witness :
    MetricsHandlerCfg.errorHandling { errorHandling := .ContinueOnError }
      = ErrorHandling.ContinueOnError
    ∧ ∀ g : GatherOutcome,
        (promhttpResponse { errorHandling := .ContinueOnError } g).status = 200
        ∧ (promhttpResponse { errorHandling := .ContinueOnError } g).body
            = g.output :=
  metrics_handler_continues_on_error unitEnvironment defaultFlags
    config.Config.zero { errorHandling := .ContinueOnError } rfl
